import Mathlib

/-!
Shallow embedding of the query normalization, harvesting and fallback pipeline
of the vitibrasil scraping API. The definitions below are translated from
src/api/src/models/query_params_model.py (the QueryParametersModel validator)
and src/api/src/routes/scraping.py (build_full_url, get_data_table,
get_table_sql, scrape_table_content, save_table_sql).
-/

/- ===== Query Descriptor Validator (query_params_model.py) ===== -/

/-- Raw request parameters: option is a required string field, year and
sub_option are optional string fields, as in the pydantic model. -/
structure RawQuery where
  option : String
  year : Option String
  sub_option : Option String
deriving DecidableEq, Repr

/-- Validation failures raised as ValueError by the model validators.
Each constructor carries the data the Python error message interpolates. -/
inductive ValErr
  | invalidOption
  | invalidYear
  | yearOutOfRange (lo hi : Int)
  | invalidSubOption (allowed : List String)
  | subOptionNotAllowed
deriving DecidableEq, Repr

/-- The validated model after all three model validators ran: canonical
fields plus the private original fields exposed as computed fields. -/
structure QueryDescriptor where
  option : String
  year : String
  sub_option : Option String
  original_option : String
  original_year : String
  original_sub_option : Option String
deriving DecidableEq, Repr

/-- The option_map dict of validate_and_transform_option, in declaration
order. -/
def option_map : List (String × String) :=
  [("producao", "opcao=opt_02"),
   ("processamento", "opcao=opt_03"),
   ("comercializacao", "opcao=opt_04"),
   ("importacao", "opcao=opt_05"),
   ("exportacao", "opcao=opt_06")]

/-- Digits of a numeral evaluated to a natural number; none on the empty
list or on any non-digit character. -/
def digitsVal (cs : List Char) : Option Nat :=
  if cs.isEmpty then none
  else
    cs.foldl
      (fun acc c =>
        match acc with
        | none => none
        | some n => if c.isDigit then some (10 * n + (c.toNat - 48)) else none)
      (some 0)

/-- Models the Python int() conversion applied to the year string: an
optional sign followed by decimal digits yields the integer, anything
else raises ValueError (modelled as none). -/
def parseIntPy (s : String) : Option Int :=
  match s.data with
  | '-' :: rest => (digitsVal rest).map (fun n => -(n : Int))
  | '+' :: rest => (digitsVal rest).map (fun n => (n : Int))
  | cs => (digitsVal cs).map (fun n => (n : Int))

/-- validate_and_transform_option: the option must be a key of option_map;
on success returns (canonical, original). -/
def validate_and_transform_option (q : RawQuery) : Except ValErr (String × String) :=
  match option_map.lookup q.option with
  | none => Except.error ValErr.invalidOption
  | some canon => Except.ok (canon, q.option)

/-- The until_2024 entry of the year_map dict. -/
def until_2024 : List String := ["importacao", "exportacao"]

/-- The until_2023 entry of the year_map dict. -/
def until_2023 : List String := ["producao", "processamento", "comercializacao"]

/-- validate_and_transform_year: absent year defaults to 2023; a present
year must parse as an integer and lie in the range of the original
option; on success returns (canonical, original). -/
def validate_and_transform_year (origOpt : String) (year : Option String) :
    Except ValErr (String × String) :=
  match year with
  | none => Except.ok ("ano=2023", "2023")
  | some s =>
    match parseIntPy s with
    | none => Except.error ValErr.invalidYear
    | some n =>
      if origOpt ∈ until_2024 ∧ ¬(1970 ≤ n ∧ n ≤ 2024) then
        Except.error (ValErr.yearOutOfRange 1970 2024)
      else if origOpt ∈ until_2023 ∧ ¬(1970 ≤ n ∧ n ≤ 2023) then
        Except.error (ValErr.yearOutOfRange 1970 2023)
      else
        Except.ok ("ano=" ++ s, s)

/-- The sub_options_map dict of validate_and_set_sub_option, with each
inner dict kept in declaration order. -/
def sub_options_map (origOpt : String) : Option (List (String × String)) :=
  if origOpt = "processamento" then
    some [("viniferas", "subopcao=subopt_01"),
          ("americanas_e_hibridas", "subopcao=subopt_02"),
          ("uvas_de_mesa", "subopcao=subopt_03"),
          ("sem_classificacao", "subopcao=subopt_04")]
  else if origOpt = "importacao" then
    some [("vinhos_de_mesa", "subopcao=subopt_01"),
          ("espumantes", "subopcao=subopt_02"),
          ("uvas_frescas", "subopcao=subopt_03"),
          ("uvas_passas", "subopcao=subopt_04"),
          ("suco_de_uva", "subopcao=subopt_05")]
  else if origOpt = "exportacao" then
    some [("vinhos_de_mesa", "subopcao=subopt_01"),
          ("espumantes", "subopcao=subopt_02"),
          ("uvas_frescas", "subopcao=subopt_03"),
          ("suco_de_uva", "subopcao=subopt_04")]
  else none

/-- validate_and_set_sub_option: for options with sub-options, an absent
value defaults to the first declared key and a present value must be a
key; for the other options any supplied value is rejected. Returns
(canonical, original). The head? none branch is unreachable because the
three inner dicts are nonempty. -/
def validate_and_set_sub_option (origOpt : String) (sub : Option String) :
    Except ValErr (Option String × Option String) :=
  match sub_options_map origOpt with
  | some valids =>
    match sub with
    | none =>
      match valids.head? with
      | some kv => Except.ok (some kv.2, some kv.1)
      | none => Except.ok (none, none)
    | some s =>
      match valids.lookup s with
      | none => Except.error (ValErr.invalidSubOption (valids.map (fun p => p.1)))
      | some v => Except.ok (some v, some s)
  | none =>
    match sub with
    | some _ => Except.error ValErr.subOptionNotAllowed
    | none => Except.ok (none, none)

/-- The whole QueryParametersModel validation: the three model validators
run in declaration order, stopping at the first error, exactly as
pydantic chains the mode after validators. -/
def QueryParametersModel_validate (q : RawQuery) : Except ValErr QueryDescriptor :=
  match validate_and_transform_option q with
  | Except.error e => Except.error e
  | Except.ok (canonOpt, origOpt) =>
    match validate_and_transform_year origOpt q.year with
    | Except.error e => Except.error e
    | Except.ok (canonYear, origYear) =>
      match validate_and_set_sub_option origOpt q.sub_option with
      | Except.error e => Except.error e
      | Except.ok (canonSub, origSub) =>
        Except.ok ⟨canonOpt, canonYear, canonSub, origOpt, origYear, origSub⟩

/-- The five keys of option_map. -/
def validOptions : List String :=
  ["producao", "processamento", "comercializacao", "importacao", "exportacao"]

/-- Upper bound of the year range the validator enforces for an option. -/
def yearHi (o : String) : Int := if o ∈ until_2024 then 2024 else 2023

/-- Keys of the sub-option dict of an option (empty when the option has
no sub-options). -/
def allowedSubs (o : String) : List String :=
  ((sub_options_map o).getD []).map (fun p => p.1)

/-- First declared sub-option key of an option, if the option has
sub-options. -/
def defaultSubFor (o : String) : Option String :=
  (sub_options_map o).bind (fun l => l.head?.map (fun p => p.1))

/-- True exactly on a successful validation result. -/
def isOkB (e : Except ValErr QueryDescriptor) : Bool :=
  match e with
  | Except.ok _ => true
  | Except.error _ => false

/-- Original year of a successful validation result. -/
def origYearOf (e : Except ValErr QueryDescriptor) : Option String :=
  match e with
  | Except.ok d => some d.original_year
  | Except.error _ => none

/-- Canonical year of a successful validation result. -/
def canonYearOf (e : Except ValErr QueryDescriptor) : Option String :=
  match e with
  | Except.ok d => some d.year
  | Except.error _ => none

/-- Original sub-option of a successful validation result. -/
def origSubOf (e : Except ValErr QueryDescriptor) : Option (Option String) :=
  match e with
  | Except.ok d => some d.original_sub_option
  | Except.error _ => none

/- ===== URL Builder (scraping.py, build_full_url) ===== -/

/-- The already validated parameters build_full_url reads: the canonical
option and year fragments and the optional canonical sub-option
fragment. -/
structure UrlParams where
  option : String
  year : String
  sub_option : Option String
deriving DecidableEq, Repr

/-- The PARTIAL_URL constant of build_full_url. -/
def PARTIAL_URL : String := "http://vitibrasil.cnpuv.embrapa.br/index.php?"

/-- build_full_url: base plus option plus year, appending the sub-option
fragment when it is truthy (in Python an empty string is falsy, so it is
appended only when present and nonempty). -/
def build_full_url (p : UrlParams) : String :=
  let full := PARTIAL_URL ++ p.option ++ "&" ++ p.year
  match p.sub_option with
  | some s => if s = "" then full else full ++ "&" ++ s
  | none => full

/- ===== HTML Table Extractor (scraping.py, get_data_table) ===== -/

/-- One tbody row of the data table, already reduced to the text of its
cells of class tb_item and of class tb_subitem, text-trimmed, in
document order. -/
structure BodyRow where
  itemCells : List String
  subItemCells : List String
deriving DecidableEq, Repr

/-- The items_dict of get_data_table: a Python dict from category key to
an inner dict from sub-product to quantity, both insertion ordered. -/
abbrev CatDict := List (String × List (String × String))

/-- Python dict assignment on the inner dict: overwrite in place when the
key exists, append otherwise. -/
def dictAssign (d : List (String × String)) (k v : String) : List (String × String) :=
  if d.any (fun p => p.1 == k) then
    d.map (fun p => if p.1 == k then (p.1, v) else p)
  else d ++ [(k, v)]

/-- Python dict assignment of a fresh empty inner dict to a category key:
overwrite in place when the key exists, append otherwise. -/
def dictSetEmpty (d : CatDict) (k : String) : CatDict :=
  if d.any (fun p => p.1 == k) then
    d.map (fun p => if p.1 == k then (p.1, ([] : List (String × String))) else p)
  else d ++ [(k, [])]

/-- Assignment into the inner dict of an existing category key; none
models the KeyError raised when the key is absent from the dict. -/
def dictSubAssign (d : CatDict) (k sk sv : String) : Option CatDict :=
  if d.any (fun p => p.1 == k) then
    some (d.map (fun p => if p.1 == k then (p.1, dictAssign p.2 sk sv) else p))
  else none

/-- Category key built by an item row: the first cell, a spaced colon,
then the second cell. -/
def catKey (r : BodyRow) : String :=
  r.itemCells.headD "" ++ " : " ++ (r.itemCells.drop 1).headD ""

/-- One loop iteration of the category branch of get_data_table: the item
phase opens a new category when the row has at least two tb_item cells,
then the sub-item phase stores a pair under the current category when
the row has at least two tb_subitem cells; none models the KeyError
raised when a sub-item pair is stored while current_category is still
None. -/
def catStep (st : CatDict × Option String) (r : BodyRow) :
    Option (CatDict × Option String) :=
  let st1 :=
    if 2 ≤ r.itemCells.length then
      (dictSetEmpty st.1 (catKey r), some (catKey r))
    else st
  if 2 ≤ r.subItemCells.length then
    match st1.2 with
    | none => none
    | some cat =>
      (dictSubAssign st1.1 cat (r.subItemCells.headD "")
        ((r.subItemCells.drop 1).headD "")).map (fun d2 => (d2, some cat))
  else some st1

/-- Runs catStep over the body rows, propagating an uncaught exception. -/
def runRows : CatDict × Option String → List BodyRow → Option (CatDict × Option String)
  | st, [] => some st
  | st, r :: rs =>
    match catStep st r with
    | none => none
    | some st2 => runRows st2 rs

/-- The category branch of get_data_table (original options producao,
processamento, comercializacao): fold the rows from an empty dict and a
None current category and return list of the dict items; none models an
uncaught KeyError. -/
def get_data_table_cat (rows : List BodyRow) : Option CatDict :=
  (runRows ([], none) rows).map (fun st => st.1)

/- ===== Fallback Snapshot Query Engine (scraping.py, get_table_sql) ===== -/

/-- One persisted snapshot row of a category option table, with the
columns written by the bulk harvest. -/
structure SnapRow where
  produto : String
  quantidade : String
  nivel : String
  categoria : String
  ano : Int
deriving DecidableEq, Repr

/-- Column labels selected by the producao and comercializacao query;
iterating a pandas DataFrame yields these labels, which is what
list of df.head(1) evaluates to. -/
def producaoCols : List String :=
  ["Produto", "Quantidade (L.)", "Nivel", "Categoria"]

/-- The rows the SQL query returns for the producao and comercializacao
branch: the stored rows whose Ano column equals the original year, each
projected to the four selected columns in order. -/
def producaoQuery (tbl : List SnapRow) (year : Int) : List (List String) :=
  (tbl.filter (fun r => r.ano == year)).map
    (fun r => [r.produto, r.quantidade, r.nivel, r.categoria])

/-- The producao and comercializacao branch of get_table_sql: headers are
the DataFrame column labels, footers are the values of the last matching
row (df.tail(1).iloc 0, an IndexError on an empty frame, caught and
turned into an error response), and the data rows iterate
df.head(shape minus 2) skipping index 0. -/
def get_table_sql_cat (tbl : List SnapRow) (year : Int) :
    Except String (List String × List String × List (List String)) :=
  let rows := producaoQuery tbl year
  match rows.getLast? with
  | none => Except.error "single positional indexer is out-of-bounds"
  | some lastRow =>
    Except.ok (producaoCols, lastRow, (rows.take (rows.length - 2)).drop 1)

/-- Headers component of a get_table_sql result. -/
def sqlHeaders (e : Except String (List String × List String × List (List String))) :
    List String :=
  match e with
  | Except.ok (h, _, _) => h
  | Except.error _ => []

/-- Data rows component of a get_table_sql result. -/
def sqlDataRows (e : Except String (List String × List String × List (List String))) :
    List (List String) :=
  match e with
  | Except.ok (_, _, r) => r
  | Except.error _ => []

/-- A concrete snapshot table holding exactly four stored rows for year
2023. -/
def tbl4 : List SnapRow :=
  [⟨"ItemA", "100", "item", "catA", 2023⟩,
   ⟨"SubA1", "40", "subitem", "ItemA", 2023⟩,
   ⟨"SubA2", "60", "subitem", "ItemA", 2023⟩,
   ⟨"Total", "100", "total", "tot", 2023⟩]

/- ===== Harvest Orchestrator (scraping.py, scrape_table_content) ===== -/

/-- The original fields of the descriptor that scrape_table_content echoes
and that get_table_sql filters by. -/
structure ScrapeParams where
  origOpt : String
  origYear : String
  origSub : Option String
deriving DecidableEq, Repr

/-- What the get_table_sql call evaluates to inside the except branch of
scrape_table_content: either the three-element tuple of headers, footers
and data rows, or the two-element tuple of a jsonify error response and
the 500 status code produced by its internal except handler. -/
inductive FbResult
  | tuple3 (h f : List String) (rows : List (List String))
  | tuple2 (errMsg : String)
deriving DecidableEq, Repr

/-- The HTTP response scrape_table_content returns: the 200 payload
echoing the original parameters with headers, footers and data, or the
error payload built by the outer except handler. -/
inductive ScrapeResp
  | ok (origOpt : String) (origYear : String) (origSub : Option String)
      (h f : List String) (rows : List (List String))
  | err (msg : String)
deriving DecidableEq, Repr

/-- Message of the ValueError raised when the two-element tuple returned
by a failed get_table_sql is unpacked into the three variables
table_headers, table_footers, data_table. -/
def unpackErrMsg : String := "not enough values to unpack (expected 3, got 2)"

/-- scrape_table_content with the live fetch and extraction abstracted as
an optional result (none models any exception in the inner try) and the
fallback abstracted as the function the descriptor is passed to. On live
failure the fallback runs on the same descriptor; a tuple3 unpacks and
is served, a tuple2 fails to unpack and the outer except returns the
unpack error. -/
def scrape_table_content
    (live : Option (List String × List String × List (List String)))
    (fallback : ScrapeParams → FbResult) (p : ScrapeParams) : ScrapeResp :=
  match live with
  | some (h, f, d) => ScrapeResp.ok p.origOpt p.origYear p.origSub h f d
  | none =>
    match fallback p with
    | FbResult.tuple3 h f d => ScrapeResp.ok p.origOpt p.origYear p.origSub h f d
    | FbResult.tuple2 _ => ScrapeResp.err unpackErrMsg

/-- A concrete descriptor for the orchestrator. -/
def p0 : ScrapeParams := ⟨"producao", "2023", none⟩

/- ===== Bulk harvest (scraping.py, save_table_sql) ===== -/

/-- The dict_options dict of the save_table_sql endpoint. -/
def dict_options : List (String × String) :=
  [("producao", "opcao=opt_02"),
   ("processamento", "opcao=opt_03"),
   ("comercializacao", "opcao=opt_04"),
   ("importacao", "opcao=opt_05"),
   ("exportacao", "opcao=opt_06")]

/-- Exception raised by one bulk iteration: a requests.RequestException or
any other processing exception, each carrying its message. -/
inductive IterExc
  | http (msg : String)
  | processing (msg : String)
deriving DecidableEq, Repr

/-- The message the iteration appends to the errors list. -/
def excText : IterExc → String
  | IterExc.http m => "Erro na requisição HTTP: " ++ m
  | IterExc.processing m => "Erro ao processar os dados: " ++ m

/-- Entry of anos_processados: the bare year for producao and
comercializacao, the year with the sub-option for the other options. -/
inductive ProcEntry
  | yearOnly (ano : Nat)
  | withSub (ano : Nat) (sub : String)
deriving DecidableEq, Repr

/-- Mutable state of the bulk loop: anos_processados, errors and the fg
replace-then-append flag. -/
structure BulkState where
  processados : List ProcEntry
  errors : List String
  fg : Nat
deriving DecidableEq, Repr

/-- Environment of one bulk iteration: given the year and sub-option it
either succeeds (none) or raises the given exception, abstracting the
network fetch, the parsing and the to_sql write. -/
def BulkOracle := Nat → Option String → Option IterExc

/-- One try block of the bulk loop: on success the pair is appended to
anos_processados and fg is bumped on the first write, on an exception
its message is appended to errors and the loop continues. -/
def attemptIter (oracle : BulkOracle) (st : BulkState) (ano : Nat)
    (sub : Option String) : BulkState :=
  match oracle ano sub with
  | some e => { st with errors := st.errors ++ [excText e] }
  | none =>
    { st with
      processados := st.processados ++
        [match sub with
         | none => ProcEntry.yearOnly ano
         | some s => ProcEntry.withSub ano s],
      fg := if st.fg = 0 then st.fg + 1 else st.fg }

/-- The sub-option list the processamento branch iterates. -/
def processamentoSubs : List String :=
  ["viniferas", "americanas_e_hibridas", "uvas_de_mesa", "sem_classificacao"]

/-- The sub-option list the importacao and exportacao branch iterates. -/
def importExportSubs : List String :=
  ["vinhos_de_mesa", "espumantes", "uvas_frescas", "uvas_passas", "suco_de_uva"]

/-- One iteration of the outer year loop, mirroring the indentation of the
source: the producao and comercializacao branch is guarded by ano not
being 2024, while the processamento and the importacao and exportacao
branches are elif branches of that very guard, hence only reachable when
ano equals 2024; the processamento branch then re-checks ano not being
2024 and therefore never runs its sub-option loop. -/
def bulkYearStep (opcao : String) (oracle : BulkOracle) (st : BulkState)
    (ano : Nat) : BulkState :=
  if ano ≠ 2024 then
    if opcao = "producao" ∨ opcao = "comercializacao" then
      attemptIter oracle st ano none
    else st
  else if opcao = "processamento" then
    if ano ≠ 2024 then
      processamentoSubs.foldl (fun s sub => attemptIter oracle s ano (some sub)) st
    else st
  else if opcao = "importacao" ∨ opcao = "exportacao" then
    importExportSubs.foldl (fun s sub => attemptIter oracle s ano (some sub)) st
  else st

/-- The save_table_sql endpoint: an unknown option is rejected with a 400
error, otherwise the year loop runs over range(1970, 2025) and the
response carries anos_processados and the collected errors. -/
def save_table_sql (opcao : String) (oracle : BulkOracle) :
    Except String (List ProcEntry × List String) :=
  match dict_options.lookup opcao with
  | none => Except.error "Opção inválida"
  | some _ =>
    let final := (List.range' 1970 55).foldl (bulkYearStep opcao oracle) ⟨[], [], 0⟩
    Except.ok (final.processados, final.errors)

/-- Oracle that fails the year 2000 fetch with a network error and
succeeds everywhere else. -/
def oracleFail2000 : BulkOracle :=
  fun ano _ => if ano = 2000 then some (IterExc.http "boom") else none

/-- Oracle on which every iteration succeeds. -/
def oracleAllOk : BulkOracle := fun _ _ => none

/-- The original sub-option a successful validation stores: the supplied
value when present, else the first declared key of the option sub-option
dict. -/
def suppliedOrDefault (o : String) (sub : Option String) : Option String :=
  match sub with
  | some s => some s
  | none => defaultSubFor o

/- ===== Theorems ===== -/

/-- Claim C8: build_full_url is a pure function of the descriptor that
concatenates the fixed base path, the canonical option fragment and the
canonical year fragment, appending the canonical sub-option fragment iff
one is present, and on the descriptor with option opcao=opt_02 and year
ano=2000 and no sub-option it produces exactly the stated URL. -/
theorem C8_build_full_url :
    (∀ o y, build_full_url ⟨o, y, none⟩ = PARTIAL_URL ++ o ++ "&" ++ y)
    ∧ (∀ o y s, s ≠ "" →
        build_full_url ⟨o, y, some s⟩ = PARTIAL_URL ++ o ++ "&" ++ y ++ "&" ++ s)
    ∧ build_full_url ⟨"opcao=opt_02", "ano=2000", none⟩ =
        "http://vitibrasil.cnpuv.embrapa.br/index.php?opcao=opt_02&ano=2000" := by
  refine ⟨fun o y => rfl, fun o y s hs => ?_, rfl⟩
  simp [build_full_url, hs]

/-- Witness for C8 at a concrete nonempty sub-option. -/
theorem C8_build_full_url_witness :
    build_full_url ⟨"a", "b", some "c"⟩ = PARTIAL_URL ++ "a" ++ "&" ++ "b" ++ "&" ++ "c" :=
  C8_build_full_url.2.1 "a" "b" "c" (by decide)

/-- Claim C3 counterexample: with option importacao and the year absent,
the validator sets the original year to 2023, not to 2024, the most
recent year of the importacao range. -/
theorem C3_default_year_counterexample :
    origYearOf (QueryParametersModel_validate ⟨"importacao", none, none⟩) = some "2023"
    ∧ origYearOf (QueryParametersModel_validate ⟨"importacao", none, none⟩) ≠ some "2024" :=
  ⟨rfl, by decide⟩

/-- Claim C3 amended: for every valid option, an absent year defaults to
the fixed year 2023 (the most recent producao year), populating the
original year with 2023 and the canonical year with ano=2023, regardless
of the option range. -/
theorem C3_default_year (o : String) (ho : o ∈ validOptions) :
    origYearOf (QueryParametersModel_validate ⟨o, none, none⟩) = some "2023"
    ∧ canonYearOf (QueryParametersModel_validate ⟨o, none, none⟩) = some "ano=2023" := by
  fin_cases ho <;> exact ⟨rfl, rfl⟩

/-- Witness for C3 amended at option producao. -/
theorem C3_default_year_witness :
    origYearOf (QueryParametersModel_validate ⟨"producao", none, none⟩) = some "2023"
    ∧ canonYearOf (QueryParametersModel_validate ⟨"producao", none, none⟩) = some "ano=2023" :=
  C3_default_year "producao" (by decide)

/-- Claim C4 counterexample: when the live path fails and the fallback
also fails, the surfaced error is the tuple unpack error, not the
fallback error message. -/
theorem C4_fallback_error_counterexample :
    scrape_table_content none (fun _ => FbResult.tuple2 "could not connect to server") p0 =
      ScrapeResp.err unpackErrMsg
    ∧ unpackErrMsg ≠ "could not connect to server" :=
  ⟨rfl, by decide⟩

/-- Claim C4 amended: on any live failure the orchestrator runs the
fallback on the same descriptor; a successful fallback is served, and a
failed fallback (which returns a response-and-status pair from
get_table_sql) makes the call fail with the tuple unpack error instead
of the fallback error. -/
theorem C4_fallback_substitution :
    (∀ (fallback : ScrapeParams → FbResult) (p : ScrapeParams) (h f : List String)
        (d : List (List String)), fallback p = FbResult.tuple3 h f d →
      scrape_table_content none fallback p = ScrapeResp.ok p.origOpt p.origYear p.origSub h f d)
    ∧ (∀ (fallback : ScrapeParams → FbResult) (p : ScrapeParams) (m : String),
        fallback p = FbResult.tuple2 m →
      scrape_table_content none fallback p = ScrapeResp.err unpackErrMsg) := by
  constructor
  · intro fallback p h f d hf
    simp [scrape_table_content, hf]
  · intro fallback p m hf
    simp [scrape_table_content, hf]

/-- Witness for C4 amended with a concrete failing fallback. -/
theorem C4_fallback_substitution_witness :
    scrape_table_content none (fun _ => FbResult.tuple2 "db down") p0 =
      ScrapeResp.err unpackErrMsg :=
  C4_fallback_substitution.2 (fun _ => FbResult.tuple2 "db down") p0 "db down" rfl

/-- Claim C2 counterexample: on a snapshot table holding exactly four
stored rows for the queried year, the fallback engine returns one data
row, not the two rows the claim predicts, and its headers are the query
column labels, not the values of the stripped first stored row. -/
theorem C2_snapshot_counterexample :
    (producaoQuery tbl4 2023).length = 4
    ∧ (sqlDataRows (get_table_sql_cat tbl4 2023)).length ≠ 4 - 2
    ∧ sqlHeaders (get_table_sql_cat tbl4 2023) ≠ ["ItemA", "100", "item", "catA"] := by
  refine ⟨rfl, by decide, by decide⟩

/-- Claim C2 amended: for every snapshot table with at least one row
matching the queried year, the fallback engine returns the matching rows
with the first one and the last two stripped (hence N minus 3 data rows
for N matching rows), headers equal to the fixed query column labels and
footers equal to the values of the last matching row. -/
theorem C2_snapshot_slicing (tbl : List SnapRow) (year : Int) (lastRow : List String)
    (h : (producaoQuery tbl year).getLast? = some lastRow) :
    get_table_sql_cat tbl year =
      Except.ok (producaoCols, lastRow,
        ((producaoQuery tbl year).take ((producaoQuery tbl year).length - 2)).drop 1)
    ∧ (sqlDataRows (get_table_sql_cat tbl year)).length =
        (producaoQuery tbl year).length - 3 := by
  have h1 : get_table_sql_cat tbl year =
      Except.ok (producaoCols, lastRow,
        ((producaoQuery tbl year).take ((producaoQuery tbl year).length - 2)).drop 1) := by
    simp only [get_table_sql_cat]
    rw [h]
  refine ⟨h1, ?_⟩
  rw [h1]
  simp [sqlHeaders, sqlDataRows, List.length_drop, List.length_take]
  omega

/-- Witness for C2 amended on the concrete four-row snapshot table. -/
theorem C2_snapshot_slicing_witness :
    (producaoQuery tbl4 2023).getLast? = some ["Total", "100", "total", "tot"]
    ∧ (get_table_sql_cat tbl4 2023 =
        Except.ok (producaoCols, ["Total", "100", "total", "tot"],
          ((producaoQuery tbl4 2023).take ((producaoQuery tbl4 2023).length - 2)).drop 1)
      ∧ (sqlDataRows (get_table_sql_cat tbl4 2023)).length =
          (producaoQuery tbl4 2023).length - 3) :=
  ⟨by decide, C2_snapshot_slicing tbl4 2023 ["Total", "100", "total", "tot"] (by decide)⟩

/-- Claim C7: under the category discipline an item row with at least two
item cells opens a new category keyed label colon value, a sub-item row
with at least two sub-item cells adds a pair under the most recently
opened category, rows with fewer than two relevant cells contribute
nothing and raise nothing, and the concrete three-row body yields
exactly one category with exactly one sub-label entry. -/
theorem C7_category_extraction :
    (∀ (st : CatDict × Option String) (r : BodyRow),
        r.itemCells.length < 2 → r.subItemCells.length < 2 → catStep st r = some st)
    ∧ (∀ (d : CatDict) (cc : Option String) (r : BodyRow),
        2 ≤ r.itemCells.length → r.subItemCells.length < 2 →
        catStep (d, cc) r = some (dictSetEmpty d (catKey r), some (catKey r)))
    ∧ (∀ (d : CatDict) (cat : String) (r : BodyRow),
        r.itemCells.length < 2 → 2 ≤ r.subItemCells.length →
        catStep (d, some cat) r =
          (dictSubAssign d cat (r.subItemCells.headD "")
            ((r.subItemCells.drop 1).headD "")).map (fun d2 => (d2, some cat)))
    ∧ get_data_table_cat [⟨["ItemA", "10"], []⟩, ⟨[], ["SubB", "5"]⟩, ⟨[], ["x"]⟩] =
        some [("ItemA : 10", [("SubB", "5")])] := by
  refine ⟨?_, ?_, ?_, rfl⟩
  · intro st r h1 h2
    simp [catStep, not_le.mpr h1, not_le.mpr h2]
  · intro d cc r h1 h2
    simp [catStep, h1, not_le.mpr h2]
  · intro d cat r h1 h2
    simp [catStep, not_le.mpr h1, h2]

/-- Witness for C7 at a row with one item cell and one sub-item cell. -/
theorem C7_category_extraction_witness :
    catStep ([("k", [])], some "k") ⟨["a"], ["b"]⟩ = some ([("k", [])], some "k") :=
  C7_category_extraction.1 ([("k", [])], some "k") ⟨["a"], ["b"]⟩ (by decide) (by decide)

/-- Helper for C10: folding rows that never carry two item cells keeps the
current category at None, unless an orphan sub-item row already raised. -/
theorem runRows_orphan_aux (pre : List BodyRow) :
    ∀ (d : CatDict) (rest : List BodyRow),
    (∀ p ∈ pre, p.itemCells.length < 2) →
    runRows (d, none) (pre ++ rest) = none ∨
    ∃ d2, runRows (d, none) (pre ++ rest) = runRows (d2, none) rest := by
  induction pre with
  | nil =>
    intro d rest _
    exact Or.inr ⟨d, rfl⟩
  | cons p ps ih =>
    intro d rest hpre
    have hp : p.itemCells.length < 2 := hpre p (List.mem_cons_self p ps)
    have hps : ∀ q ∈ ps, q.itemCells.length < 2 :=
      fun q hq => hpre q (List.mem_cons_of_mem p hq)
    by_cases hsub : 2 ≤ p.subItemCells.length
    · left
      simp [runRows, catStep, not_le.mpr hp, hsub]
    · have hstep : catStep (d, none) p = some (d, none) := by
        simp [catStep, not_le.mpr hp, hsub]
      have hrw : runRows (d, none) ((p :: ps) ++ rest) = runRows (d, none) (ps ++ rest) := by
        simp [runRows, hstep]
      rw [hrw]
      exact ih d rest hps

/-- Claim C10: if a sub-item row with at least two sub-item cells occurs
before any item row with at least two item cells has opened a category,
get_data_table raises an uncaught exception (modelled as none) instead
of skipping the row or returning a result. -/
theorem C10_orphan_subitem (pre : List BodyRow) (r : BodyRow) (post : List BodyRow)
    (hpre : ∀ p ∈ pre, p.itemCells.length < 2)
    (hitem : r.itemCells.length < 2) (hsub : 2 ≤ r.subItemCells.length) :
    get_data_table_cat (pre ++ r :: post) = none := by
  rcases runRows_orphan_aux pre [] (r :: post) hpre with hnone | ⟨d2, heq⟩
  · simp [get_data_table_cat, hnone]
  · have hfail : runRows (d2, none) (r :: post) = none := by
      simp [runRows, catStep, not_le.mpr hitem, hsub]
    simp [get_data_table_cat, heq, hfail]

/-- Witness for C10 on a concrete body whose first two-cell row is a
sub-item row. -/
theorem C10_orphan_subitem_witness :
    get_data_table_cat [⟨["solo"], []⟩, ⟨[], ["s", "v"]⟩] = none :=
  C10_orphan_subitem [⟨["solo"], []⟩] ⟨[], ["s", "v"]⟩ []
    (by decide) (by decide) (by decide)


/-- Helper: a successful option step preserves the supplied option token
as the original. -/
theorem opt_step_orig (q : RawQuery) (c o : String)
    (h : validate_and_transform_option q = Except.ok (c, o)) : o = q.option := by
  unfold validate_and_transform_option at h
  split at h
  · simp at h
  · simp only [Except.ok.injEq, Prod.mk.injEq] at h
    exact h.2.symm

/-- Helper: a successful year step returns the supplied year string, or
2023 when the year was absent, as the original. -/
theorem year_step_orig (origOpt : String) (y : Option String) (cy oy : String)
    (h : validate_and_transform_year origOpt y = Except.ok (cy, oy)) :
    oy = y.getD "2023" := by
  unfold validate_and_transform_year at h
  split at h
  · simp only [Except.ok.injEq, Prod.mk.injEq] at h
    simp [h.2.symm]
  · split at h
    · simp at h
    · split_ifs at h
      · simp only [Except.ok.injEq, Prod.mk.injEq] at h
        simp [h.2.symm]

/-- Helper: a successful sub-option step returns the supplied sub-option,
or the first declared key of the option sub-option dict when absent, as
the original. -/
theorem sub_step_orig (origOpt : String) (sub : Option String) (cs os : Option String)
    (h : validate_and_set_sub_option origOpt sub = Except.ok (cs, os)) :
    os = suppliedOrDefault origOpt sub := by
  unfold validate_and_set_sub_option at h
  split at h
  · rename_i valids hm
    split at h
    · split at h
      · rename_i kv hh
        simp only [Except.ok.injEq, Prod.mk.injEq] at h
        simp [h.2.symm, suppliedOrDefault, defaultSubFor, hm, hh]
      · rename_i hh
        simp only [Except.ok.injEq, Prod.mk.injEq] at h
        simp [h.2.symm, suppliedOrDefault, defaultSubFor, hm, hh]
    · split at h
      · simp at h
      · simp only [Except.ok.injEq, Prod.mk.injEq] at h
        simp [h.2.symm, suppliedOrDefault]
  · rename_i hm
    split at h
    · simp at h
    · simp only [Except.ok.injEq, Prod.mk.injEq] at h
      simp [h.2.symm, suppliedOrDefault, defaultSubFor, hm]

/-- Claim C9: whenever validation succeeds, the original fields of the
descriptor equal exactly the supplied tokens, or the substituted
defaults where a parameter was absent, unchanged by the canonical
transformation. -/
theorem C9_originals_preserved (q : RawQuery) (d : QueryDescriptor)
    (h : QueryParametersModel_validate q = Except.ok d) :
    d.original_option = q.option
    ∧ d.original_year = q.year.getD "2023"
    ∧ d.original_sub_option = suppliedOrDefault q.option q.sub_option := by
  unfold QueryParametersModel_validate at h
  split at h
  · simp at h
  · rename_i canonOpt origOpt h1
    split at h
    · simp at h
    · rename_i canonYear origYear h2
      split at h
      · simp at h
      · rename_i canonSub origSub h3
        simp only [Except.ok.injEq] at h
        subst h
        have ho := opt_step_orig q canonOpt origOpt h1
        subst ho
        exact ⟨rfl, year_step_orig _ q.year _ _ h2, sub_step_orig _ q.sub_option _ _ h3⟩

/-- Witness for C9 at a fully supplied concrete query. -/
theorem C9_originals_preserved_witness :
    (⟨"opcao=opt_05", "ano=2000", some "subopcao=subopt_02", "importacao", "2000",
        some "espumantes"⟩ : QueryDescriptor).original_option = "importacao"
    ∧ (⟨"opcao=opt_05", "ano=2000", some "subopcao=subopt_02", "importacao", "2000",
        some "espumantes"⟩ : QueryDescriptor).original_year =
        (some "2000").getD "2023"
    ∧ (⟨"opcao=opt_05", "ano=2000", some "subopcao=subopt_02", "importacao", "2000",
        some "espumantes"⟩ : QueryDescriptor).original_sub_option =
        suppliedOrDefault "importacao" (some "espumantes") :=
  C9_originals_preserved ⟨"importacao", some "2000", some "espumantes"⟩ _ rfl

/-- Helper: the validation pipeline on a known option canonical, a
successful year step and a successful sub-option step. -/
theorem validate_pipeline_ok (o canon : String) (y sub : Option String)
    (cy oy : String) (cs os : Option String)
    (hopt : option_map.lookup o = some canon)
    (hy : validate_and_transform_year o y = Except.ok (cy, oy))
    (hs : validate_and_set_sub_option o sub = Except.ok (cs, os)) :
    QueryParametersModel_validate ⟨o, y, sub⟩ = Except.ok ⟨canon, cy, cs, o, oy, os⟩ := by
  unfold QueryParametersModel_validate validate_and_transform_option
  simp [hopt, hy, hs]

/-- Helper: the validation pipeline stops with the year step error. -/
theorem validate_pipeline_year_err (o canon : String) (y sub : Option String) (e : ValErr)
    (hopt : option_map.lookup o = some canon)
    (hy : validate_and_transform_year o y = Except.error e) :
    QueryParametersModel_validate ⟨o, y, sub⟩ = Except.error e := by
  unfold QueryParametersModel_validate validate_and_transform_option
  simp [hopt, hy]

/-- Helper: the validation pipeline stops with the sub-option step error. -/
theorem validate_pipeline_sub_err (o canon : String) (y sub : Option String)
    (cy oy : String) (e : ValErr)
    (hopt : option_map.lookup o = some canon)
    (hy : validate_and_transform_year o y = Except.ok (cy, oy))
    (hs : validate_and_set_sub_option o sub = Except.error e) :
    QueryParametersModel_validate ⟨o, y, sub⟩ = Except.error e := by
  unfold QueryParametersModel_validate validate_and_transform_option
  simp [hopt, hy, hs]

/-- Helper: looking up a key that is not among the keys of an association
list yields none. -/
theorem lookup_eq_none_of_keys (l : List (String × String)) (s : String)
    (h : s ∉ l.map (fun p => p.1)) : List.lookup s l = none := by
  induction l with
  | nil => rfl
  | cons a as ih =>
    obtain ⟨k, v⟩ := a
    simp only [List.map_cons, List.mem_cons, not_or] at h
    have hk : (s == k) = false := beq_eq_false_iff_ne.mpr h.1
    simp [List.lookup, hk, ih h.2]

/-- Helper: a supplied sub-option outside the sub-option dict of the
option fails naming the key set. -/
theorem sub_step_invalid (o : String) (valids : List (String × String)) (s : String)
    (hm : sub_options_map o = some valids) (hl : List.lookup s valids = none) :
    validate_and_set_sub_option o (some s) =
      Except.error (ValErr.invalidSubOption (valids.map (fun p => p.1))) := by
  unfold validate_and_set_sub_option
  rw [hm]
  simp [hl]

/-- Claim C6: producao and comercializacao reject any supplied sub-option;
processamento defaults an absent sub-option to viniferas and importacao
and exportacao default to vinhos_de_mesa, the first declared members of
their sub-option lists; and a supplied value outside the option set
fails naming the allowed set. -/
theorem C6_sub_option_validation :
    (∀ s, QueryParametersModel_validate ⟨"producao", none, some s⟩ =
        Except.error ValErr.subOptionNotAllowed)
    ∧ (∀ s, QueryParametersModel_validate ⟨"comercializacao", none, some s⟩ =
        Except.error ValErr.subOptionNotAllowed)
    ∧ origSubOf (QueryParametersModel_validate ⟨"processamento", none, none⟩) =
        some (some "viniferas")
    ∧ origSubOf (QueryParametersModel_validate ⟨"importacao", none, none⟩) =
        some (some "vinhos_de_mesa")
    ∧ origSubOf (QueryParametersModel_validate ⟨"exportacao", none, none⟩) =
        some (some "vinhos_de_mesa")
    ∧ (∀ o, o ∈ ["processamento", "importacao", "exportacao"] →
        ∀ s, s ∉ allowedSubs o →
        QueryParametersModel_validate ⟨o, none, some s⟩ =
          Except.error (ValErr.invalidSubOption (allowedSubs o))) := by
  refine ⟨fun s => rfl, fun s => rfl, rfl, rfl, rfl, ?_⟩
  intro o ho s hs
  fin_cases ho
  · exact validate_pipeline_sub_err "processamento" "opcao=opt_03" none (some s)
      "ano=2023" "2023" _ rfl rfl
      (sub_step_invalid "processamento" _ s rfl (lookup_eq_none_of_keys _ s hs))
  · exact validate_pipeline_sub_err "importacao" "opcao=opt_05" none (some s)
      "ano=2023" "2023" _ rfl rfl
      (sub_step_invalid "importacao" _ s rfl (lookup_eq_none_of_keys _ s hs))
  · exact validate_pipeline_sub_err "exportacao" "opcao=opt_06" none (some s)
      "ano=2023" "2023" _ rfl rfl
      (sub_step_invalid "exportacao" _ s rfl (lookup_eq_none_of_keys _ s hs))

/-- Witness for C6 at a concrete invalid sub-option for processamento. -/
theorem C6_sub_option_validation_witness :
    QueryParametersModel_validate ⟨"processamento", none, some "xyz"⟩ =
      Except.error (ValErr.invalidSubOption (allowedSubs "processamento")) :=
  C6_sub_option_validation.2.2.2.2.2 "processamento" (by decide) "xyz" (by decide)

/-- Helper: the year step for an option of the until_2024 group checks the
1970 to 2024 range. -/
theorem year_step_range24 (o : String) (h24 : o ∈ until_2024) (h23 : o ∉ until_2023)
    (s : String) (n : Int) (hp : parseIntPy s = some n) :
    validate_and_transform_year o (some s) =
      (if 1970 ≤ n ∧ n ≤ 2024 then Except.ok ("ano=" ++ s, s)
       else Except.error (ValErr.yearOutOfRange 1970 2024)) := by
  simp only [validate_and_transform_year, hp]
  by_cases hr : 1970 ≤ n ∧ n ≤ 2024
  · simp [h24, h23, hr]
  · simp [h24, h23, hr]

/-- Helper: the year step for an option of the until_2023 group checks
the 1970 to 2023 range. -/
theorem year_step_range23 (o : String) (h24 : o ∉ until_2024) (h23 : o ∈ until_2023)
    (s : String) (n : Int) (hp : parseIntPy s = some n) :
    validate_and_transform_year o (some s) =
      (if 1970 ≤ n ∧ n ≤ 2023 then Except.ok ("ano=" ++ s, s)
       else Except.error (ValErr.yearOutOfRange 1970 2023)) := by
  simp only [validate_and_transform_year, hp]
  by_cases hr : 1970 ≤ n ∧ n ≤ 2023
  · simp [h24, h23, hr]
  · simp [h24, h23, hr]

/-- Claim C5: for every valid option and every supplied year string that
parses to an integer, validation succeeds iff the year is in the
option-dependent range (1970 to 2024 for importacao and exportacao,
1970 to 2023 for the rest), failing otherwise with the out-of-range
error carrying those bounds; a year string that does not parse fails
with the invalid year error; and for importacao, 2025 fails, 2024
succeeds and 1969 fails. -/
theorem C5_year_range :
    (∀ o, o ∈ validOptions → ∀ s n, parseIntPy s = some n →
      ((isOkB (QueryParametersModel_validate ⟨o, some s, none⟩) = true) ↔
        (1970 ≤ n ∧ n ≤ yearHi o))
      ∧ (¬(1970 ≤ n ∧ n ≤ yearHi o) →
        QueryParametersModel_validate ⟨o, some s, none⟩ =
          Except.error (ValErr.yearOutOfRange 1970 (yearHi o))))
    ∧ (∀ o s, o ∈ validOptions → parseIntPy s = none →
      QueryParametersModel_validate ⟨o, some s, none⟩ = Except.error ValErr.invalidYear)
    ∧ QueryParametersModel_validate ⟨"importacao", some "2025", none⟩ =
        Except.error (ValErr.yearOutOfRange 1970 2024)
    ∧ isOkB (QueryParametersModel_validate ⟨"importacao", some "2024", none⟩) = true
    ∧ QueryParametersModel_validate ⟨"importacao", some "1969", none⟩ =
        Except.error (ValErr.yearOutOfRange 1970 2024) := by
  have main : ∀ (o canon : String) (cs os : Option String) (hi : Int),
      option_map.lookup o = some canon →
      validate_and_set_sub_option o none = Except.ok (cs, os) →
      (∀ s n, parseIntPy s = some n →
        validate_and_transform_year o (some s) =
          (if 1970 ≤ n ∧ n ≤ hi then Except.ok ("ano=" ++ s, s)
           else Except.error (ValErr.yearOutOfRange 1970 hi))) →
      yearHi o = hi →
      ∀ s n, parseIntPy s = some n →
      ((isOkB (QueryParametersModel_validate ⟨o, some s, none⟩) = true) ↔
        (1970 ≤ n ∧ n ≤ yearHi o))
      ∧ (¬(1970 ≤ n ∧ n ≤ yearHi o) →
        QueryParametersModel_validate ⟨o, some s, none⟩ =
          Except.error (ValErr.yearOutOfRange 1970 (yearHi o))) := by
    intro o canon cs os hi hopt hsub hyear hhi s n hp
    rw [hhi]
    by_cases hr : 1970 ≤ n ∧ n ≤ hi
    · have hy := hyear s n hp
      rw [if_pos hr] at hy
      have hall := validate_pipeline_ok o canon (some s) none ("ano=" ++ s) s cs os
        hopt hy hsub
      refine ⟨?_, fun hc => absurd hr hc⟩
      rw [hall]
      simp [isOkB, hr]
    · have hy := hyear s n hp
      rw [if_neg hr] at hy
      have hall := validate_pipeline_year_err o canon (some s) none _ hopt hy
      refine ⟨?_, fun _ => hall⟩
      rw [hall]
      simp [isOkB, hr]
  refine ⟨?_, ?_, rfl, rfl, rfl⟩
  · intro o ho s n hp
    fin_cases ho
    · exact main "producao" "opcao=opt_02" none none 2023 rfl rfl
        (fun s n hp => year_step_range23 _ (by decide) (by decide) s n hp) rfl s n hp
    · exact main "processamento" "opcao=opt_03" (some "subopcao=subopt_01")
        (some "viniferas") 2023 rfl rfl
        (fun s n hp => year_step_range23 _ (by decide) (by decide) s n hp) rfl s n hp
    · exact main "comercializacao" "opcao=opt_04" none none 2023 rfl rfl
        (fun s n hp => year_step_range23 _ (by decide) (by decide) s n hp) rfl s n hp
    · exact main "importacao" "opcao=opt_05" (some "subopcao=subopt_01")
        (some "vinhos_de_mesa") 2024 rfl rfl
        (fun s n hp => year_step_range24 _ (by decide) (by decide) s n hp) rfl s n hp
    · exact main "exportacao" "opcao=opt_06" (some "subopcao=subopt_01")
        (some "vinhos_de_mesa") 2024 rfl rfl
        (fun s n hp => year_step_range24 _ (by decide) (by decide) s n hp) rfl s n hp
  · intro o s ho hp
    have hy : validate_and_transform_year o (some s) = Except.error ValErr.invalidYear := by
      simp only [validate_and_transform_year, hp]
    fin_cases ho
    · exact validate_pipeline_year_err "producao" "opcao=opt_02" (some s) none _ rfl hy
    · exact validate_pipeline_year_err "processamento" "opcao=opt_03" (some s) none _ rfl hy
    · exact validate_pipeline_year_err "comercializacao" "opcao=opt_04" (some s) none _ rfl hy
    · exact validate_pipeline_year_err "importacao" "opcao=opt_05" (some s) none _ rfl hy
    · exact validate_pipeline_year_err "exportacao" "opcao=opt_06" (some s) none _ rfl hy

/-- Witness for C5 at importacao with the year 2024. -/
theorem C5_year_range_witness :
    (isOkB (QueryParametersModel_validate ⟨"importacao", some "2024", none⟩) = true) ↔
      (1970 ≤ (2024 : Int) ∧ (2024 : Int) ≤ yearHi "importacao") :=
  (C5_year_range.1 "importacao" (by decide) "2024" 2024 (by decide)).1

/-- Helper: folding a function that fixes every state is the identity. -/
theorem foldl_const {α β : Type} (f : β → α → β) (b : β) (l : List α)
    (h : ∀ b2 x, f b2 x = b2) : l.foldl f b = b := by
  induction l generalizing b with
  | nil => rfl
  | cons a as ih => rw [List.foldl_cons, h, ih]

/-- Claim C1 evaluation: the bulk harvest loop never reaches the
processamento branch for any year other than 2024, where that branch
skips itself, so a processamento bulk run processes no pair and records
no error whatever the network does; a producao run does iterate 1970 to
2023, tolerating a failed year; an importacao run only attempts the
year 2024 with the five sub-options. -/
theorem C1_bulk_loop_indentation :
    (∀ oracle : BulkOracle, save_table_sql "processamento" oracle = Except.ok ([], []))
    ∧ save_table_sql "producao" oracleFail2000 =
        Except.ok ((((List.range' 1970 54).filter (fun a => a != 2000)).map
          ProcEntry.yearOnly), ["Erro na requisição HTTP: boom"])
    ∧ save_table_sql "importacao" oracleAllOk =
        Except.ok ([ProcEntry.withSub 2024 "vinhos_de_mesa",
          ProcEntry.withSub 2024 "espumantes", ProcEntry.withSub 2024 "uvas_frescas",
          ProcEntry.withSub 2024 "uvas_passas", ProcEntry.withSub 2024 "suco_de_uva"],
          []) := by
  refine ⟨?_, rfl, rfl⟩
  intro oracle
  have hstep : ∀ (st : BulkState) (ano : Nat),
      bulkYearStep "processamento" oracle st ano = st := by
    intro st ano
    by_cases h : ano = 2024
    · subst h
      rfl
    · unfold bulkYearStep
      rw [if_pos h, if_neg (by decide)]
  have hfold : (List.range' 1970 55).foldl (bulkYearStep "processamento" oracle)
      ⟨[], [], 0⟩ = ⟨[], [], 0⟩ :=
    foldl_const _ _ _ hstep
  calc save_table_sql "processamento" oracle
      = Except.ok
          (((List.range' 1970 55).foldl (bulkYearStep "processamento" oracle)
            ⟨[], [], 0⟩).processados,
           ((List.range' 1970 55).foldl (bulkYearStep "processamento" oracle)
            ⟨[], [], 0⟩).errors) := rfl
    _ = Except.ok ([], []) := by rw [hfold]
